import Mathlib

/-!
Shallow embedding of `index.js` from the sync-webex-room-members repository.

The script fetches the member rosters of a source and a destination Webex
room, computes the members of the source roster whose `personId` is absent
from the destination roster, issues one create-membership request per
missing member (all of them settled, none short-circuiting the others), and
assembles a report `{attempted, added, failed}`.

Modelling decisions:
* A member record carries exactly the fields the script reads
  (`personId`, `personEmail`, `personDisplayName`).
* A network fetch is modelled by the response the script observes: an HTTP
  status plus, for the roster fetch, the optional `items` field of the
  parsed JSON body (`none` models `undefined`, i.e. a body with no `items`).
* `Promise.allSettled` returns its outcomes in the order of the input
  array, independent of settlement timing; the model therefore indexes the
  network's response to the i-th add call by `i` (`net : Nat → AddResp`)
  and has no notion of completion order, which is exactly the guarantee the
  runtime provides.
* `Promise.all` of the two roster fetches rejects with a fetch error when
  either fetch fails; the model checks the source response first, a
  deterministic representative of that behaviour.
* A rejected promise's reason is the thrown `Error`; `String(reason)`
  prefixes the message with `Error: `.
* The JS `Set` of destination ids is modelled as the list of ids with
  `contains` lookup, which has the same membership semantics.
-/

namespace SyncWebex

/-- A Webex room membership record as returned by the memberships API;
only the fields the script reads are modelled. -/
structure Member where
  personId : String
  personEmail : String
  personDisplayName : String
  deriving DecidableEq, Repr

/-- The WHATWG fetch `response.ok` predicate: the status is success-class,
i.e. in the inclusive range 200–299. -/
def isOk (status : Nat) : Bool := 200 ≤ status && status ≤ 299

/-- The response observed by one roster fetch: HTTP status and the optional
`items` field of the parsed JSON body (`none` models a body without
`items`, so that `data.items` is `undefined`). -/
structure FetchResp where
  status : Nat
  items : Option (List Member)
  deriving DecidableEq, Repr

/-- The response observed by one create-membership request: HTTP status and
response body text. -/
structure AddResp where
  status : Nat
  body : String
  deriving DecidableEq, Repr

/-- `getMembers` (index.js lines 77–94): throws `HTTP error <status>` on a
non-ok response, otherwise resolves to `data.items` without validation. -/
def getMembers (resp : FetchResp) : Except String (Option (List Member)) :=
  if isOk resp.status then Except.ok resp.items
  else Except.error ("HTTP error " ++ toString resp.status)

/-- `addMember` (index.js lines 107–126): throws
`HTTP <status> – <body>` on a non-ok response, otherwise resolves to
`true`. -/
def addMember (resp : AddResp) : Except String Bool :=
  if isOk resp.status then Except.ok true
  else Except.error ("HTTP " ++ toString resp.status ++ " – " ++ resp.body)

/-- index.js line 175: `new Set(dstMembers.map(item => item.personId))`. -/
def dstMemberIds (dstMembers : List Member) : List String :=
  dstMembers.map (fun item => item.personId)

/-- index.js line 176:
`srcMembers.filter(item => !dstMemberIds.has(item.personId))`. -/
def toAdd (srcMembers dstMembers : List Member) : List Member :=
  srcMembers.filter (fun item => !((dstMemberIds dstMembers).contains item.personId))

/-- One entry of `report.failed` (index.js line 187): a field named
`personId` and an `error` string. -/
structure FailEntry where
  personId : String
  error : String
  deriving DecidableEq, Repr

/-- The report assembled at index.js lines 183–189. -/
structure Report where
  attempted : Nat
  added : Nat
  failed : List FailEntry
  deriving DecidableEq, Repr

/-- `r.status === 'fulfilled'` on one settled outcome. -/
def isFulfilled : Except String Bool → Bool
  | Except.ok _ => true
  | Except.error _ => false

/-- `String(r.reason)` where the reason is `new Error(msg)`. -/
def reasonString (msg : String) : String := "Error: " ++ msg

/-- index.js line 187: a rejected outcome paired with `toAdd[i]` yields
`{ personId: toAdd[i].personDisplayName, error: String(r.reason) }`;
a fulfilled outcome yields nothing (filtered out by `.filter(Boolean)`). -/
def failEntryOf : Except String Bool × Member → Option FailEntry
  | (Except.error reason, m) =>
      some { personId := m.personDisplayName, error := reasonString reason }
  | (Except.ok _, _) => none

/-- index.js lines 179–181: one `addMember` call per entry of `toAdd`,
settled via `Promise.allSettled`; `net i` is the network's response to the
i-th call. -/
def addResults (t : List Member) (net : Nat → AddResp) : List (Except String Bool) :=
  (List.range t.length).map (fun i => addMember (net i))

/-- index.js lines 183–189: the report assembled from `toAdd` and the
settled outcomes. -/
def mkReport (t : List Member) (rs : List (Except String Bool)) : Report :=
  { attempted := t.length
    added := (rs.filter isFulfilled).length
    failed := (rs.zip t).filterMap failEntryOf }

/-- `main` (index.js lines 165–201). `Promise.all` of the two fetches fails
with a fetch error when either fetch fails (source checked first as the
deterministic representative). When a roster resolved to `undefined`
(missing `items`), line 175 (`dstMembers.map`) or line 176
(`srcMembers.filter`) throws a `TypeError`, rejecting the run. The
fire-and-forget `sendReport` calls do not affect the returned report and
are not modelled. -/
def main (src dst : FetchResp) (net : Nat → AddResp) : Except String Report :=
  match getMembers src, getMembers dst with
  | Except.error e, _ => Except.error e
  | Except.ok _, Except.error e => Except.error e
  | Except.ok srcItems, Except.ok dstItems =>
    match dstItems, srcItems with
    | none, _ =>
        Except.error "TypeError: Cannot read properties of undefined (reading map)"
    | some _, none =>
        Except.error "TypeError: Cannot read properties of undefined (reading filter)"
    | some dstMembers, some srcMembers =>
      let t := toAdd srcMembers dstMembers
      Except.ok (mkReport t (addResults t net))

/-- The members of the missing list whose add call was rejected, in the
missing list's order: the settled outcomes paired with their originating
members, restricted to rejections. -/
def rejectedMembers (t : List Member) (net : Nat → AddResp) : List Member :=
  (((addResults t net).zip t).filter (fun p => !isFulfilled p.1)).map Prod.snd

/-- The number of rejected outcomes among a batch of add calls. -/
def rejectedCount (t : List Member) (net : Nat → AddResp) : Nat :=
  ((addResults t net).filter (fun r => !isFulfilled r)).length

/-- Concrete member used by witnesses. -/
def mAlice : Member :=
  { personId := "A", personEmail := "alice@example.com", personDisplayName := "Alice" }

/-- Concrete member used by witnesses. -/
def mBob : Member :=
  { personId := "B", personEmail := "bob@example.com", personDisplayName := "Bob" }

/-- Concrete network behaviour used by witnesses: every add succeeds. -/
def netOk : Nat → AddResp := fun _ => { status := 200, body := "" }

/-- Concrete network behaviour used by witnesses: the first add succeeds,
every later one is rejected with a 409. -/
def netMixed : Nat → AddResp :=
  fun i => if i = 0 then { status := 200, body := "" } else { status := 409, body := "conflict" }

/-- Membership in the diff: a member is in `toAdd A B` exactly when it is
in `A` and its `personId` is absent from `B`'s `personId` values. -/
theorem mem_toAdd (A B : List Member) (m : Member) :
    m ∈ toAdd A B ↔ m ∈ A ∧ m.personId ∉ B.map Member.personId := by
  simp [toAdd, dstMemberIds, List.mem_filter]

/-- The batch issues exactly one add call per missing member. -/
theorem addResults_length (t : List Member) (net : Nat → AddResp) :
    (addResults t net).length = t.length := by
  simp [addResults]

/-- Fulfilled plus rejected outcomes account for every issued call. -/
theorem counts_aux (rs : List (Except String Bool)) (t : List Member)
    (h : rs.length = t.length) :
    (rs.filter isFulfilled).length + ((rs.zip t).filterMap failEntryOf).length
      = t.length := by
  induction rs generalizing t with
  | nil =>
    cases t with
    | nil => simp
    | cons m t => simp at h
  | cons r rs ih =>
    cases t with
    | nil => simp at h
    | cons m t =>
      simp at h
      cases r with
      | ok b =>
        simp [isFulfilled, failEntryOf, List.filter_cons, List.zip_cons_cons]
        have := ih t h
        omega
      | error e =>
        simp [isFulfilled, failEntryOf, List.filter_cons, List.zip_cons_cons]
        have := ih t h
        omega

/-- The failure list has one entry per rejected outcome. -/
theorem failed_length_aux (rs : List (Except String Bool)) (t : List Member)
    (h : rs.length = t.length) :
    ((rs.zip t).filterMap failEntryOf).length
      = (rs.filter (fun r => !isFulfilled r)).length := by
  induction rs generalizing t with
  | nil => cases t <;> simp
  | cons r rs ih =>
    cases t with
    | nil => simp at h
    | cons m t =>
      simp at h
      cases r with
      | ok b => simpa [isFulfilled, failEntryOf, List.filter_cons] using ih t h
      | error e => simpa [isFulfilled, failEntryOf, List.filter_cons] using ih t h

/-- The identity labels of the failure list are the display names of the
members whose outcome was rejected, taken in order. -/
theorem failed_map_aux (rs : List (Except String Bool)) (t : List Member) :
    ((rs.zip t).filterMap failEntryOf).map FailEntry.personId
      = (((rs.zip t).filter (fun p => !isFulfilled p.1)).map Prod.snd).map
          Member.personDisplayName := by
  induction rs generalizing t with
  | nil => simp
  | cons r rs ih =>
    cases t with
    | nil => simp
    | cons m t =>
      cases r with
      | ok b => simpa [isFulfilled, failEntryOf, List.filter_cons] using ih t
      | error e => simpa [isFulfilled, failEntryOf, List.filter_cons] using ih t

/-- The members paired with rejected outcomes form a subsequence of the
original list. -/
theorem snd_zip_sublist (rs : List (Except String Bool)) (t : List Member)
    (h : rs.length = t.length) :
    (((rs.zip t).filter (fun p => !isFulfilled p.1)).map Prod.snd).Sublist t := by
  have h1 : ((rs.zip t).filter (fun p => !isFulfilled p.1)).Sublist (rs.zip t) :=
    List.filter_sublist _
  have h2 := h1.map Prod.snd
  rwa [List.map_snd_zip rs t (le_of_eq h.symm)] at h2

/-- When both fetches succeed with parsed rosters, `main` returns the
report assembled from the diff and the settled add outcomes. -/
theorem main_eq_ok (src dst : FetchResp) (net : Nat → AddResp)
    (S D : List Member)
    (h1 : isOk src.status = true) (h2 : isOk dst.status = true)
    (hs : src.items = some S) (hd : dst.items = some D) :
    main src dst net
      = Except.ok (mkReport (toAdd S D) (addResults (toAdd S D) net)) := by
  simp [main, getMembers, h1, h2, hs, hd]

/-- Any report `main` returns is the one assembled from the diff and the
settled add outcomes. -/
theorem main_ok_elim (src dst : FetchResp) (net : Nat → AddResp)
    (report : Report) (S D : List Member)
    (hs : src.items = some S) (hd : dst.items = some D)
    (h : main src dst net = Except.ok report) :
    report = mkReport (toAdd S D) (addResults (toAdd S D) net) := by
  cases h1 : isOk src.status with
  | false => simp [main, getMembers, h1] at h
  | true =>
    cases h2 : isOk dst.status with
    | false => simp [main, getMembers, h1, h2] at h
    | true =>
      rw [main_eq_ok src dst net S D h1 h2 hs hd] at h
      exact (Except.ok.inj h).symm

/-- Claim C1: `toAdd A B` consists exactly of the members of `A` whose
`personId` is absent from the set of `personId` values of `B`, and the
result is a subsequence of `A` (so it preserves `A`'s original order). -/
theorem toAdd_diff_spec (A B : List Member) :
    (toAdd A B).Sublist A ∧
      ∀ m : Member, m ∈ toAdd A B ↔ m ∈ A ∧ m.personId ∉ B.map Member.personId := by
  constructor
  · exact List.filter_sublist A
  · intro m
    exact mem_toAdd A B m

/-- Claim C2: every run that reaches report assembly produces a report with
`added + failed.length = attempted` and `attempted` equal to the size of
the computed missing list `toAdd S D`. -/
theorem report_counts_invariant (src dst : FetchResp) (net : Nat → AddResp)
    (report : Report) (S D : List Member)
    (hs : src.items = some S) (hd : dst.items = some D)
    (h : main src dst net = Except.ok report) :
    report.added + report.failed.length = report.attempted ∧
      report.attempted = (toAdd S D).length := by
  have hr := main_ok_elim src dst net report S D hs hd h
  subst hr
  refine ⟨?_, rfl⟩
  exact counts_aux _ _ (addResults_length (toAdd S D) net)

/-- Witness for C2: a concrete run with two source members, one already in
the destination, every add succeeding. -/
theorem report_counts_invariant_witness :
    (Report.mk 1 1 []).added + (Report.mk 1 1 []).failed.length
        = (Report.mk 1 1 []).attempted ∧
      (Report.mk 1 1 []).attempted = (toAdd [mAlice, mBob] [mAlice]).length :=
  report_counts_invariant ⟨200, some [mAlice, mBob]⟩ ⟨200, some [mAlice]⟩ netOk
    (Report.mk 1 1 []) [mAlice, mBob] [mAlice] rfl rfl rfl

/-- Claim C3 (code bug): for a member with `personId = "B"` and
`personDisplayName = "Bob"` missing from the destination, whose add is
rejected with HTTP 409, the failure entry's `personId` field holds the
member's `personDisplayName` ("Bob"), not its `personId` ("B") — the error
string does carry the status, but the identity label is the display name
(index.js line 187 reads `toAdd[i].personDisplayName`). -/
theorem failed_entry_carries_display_name :
    main ⟨200, some [mBob]⟩ ⟨200, some []⟩ (fun _ => ⟨409, "conflict"⟩)
        = Except.ok ⟨1, 0, [⟨"Bob", "Error: HTTP 409 – conflict"⟩]⟩ ∧
      mBob.personId = "B" ∧ mBob.personDisplayName = "Bob" ∧
      ("Bob" : String) ≠ "B" := by
  refine ⟨rfl, rfl, rfl, ?_⟩
  decide

/-- Claim C4: if the source fetch fails, or the source fetch succeeds and
the destination fetch fails, the run fails with that fetch's error; the
outcome is the same for every add-network behaviour `net`, so no add call
can influence it (none is issued), and no report is produced. -/
theorem fetch_failure_fail_fast (src dst : FetchResp) :
    (isOk src.status = false →
      ∀ net, main src dst net = Except.error ("HTTP error " ++ toString src.status)) ∧
    (isOk src.status = true → isOk dst.status = false →
      ∀ net, main src dst net = Except.error ("HTTP error " ++ toString dst.status)) := by
  constructor
  · intro h net
    simp [main, getMembers, h]
  · intro h1 h2 net
    simp [main, getMembers, h1, h2]

/-- Witness for C4: a 401 on the source fetch and a 401 on the destination
fetch each abort the run with the fetch error. -/
theorem fetch_failure_fail_fast_witness :
    main ⟨401, some []⟩ ⟨200, some []⟩ netOk = Except.error ("HTTP error " ++ toString 401) ∧
    main ⟨200, some []⟩ ⟨401, some []⟩ netOk = Except.error ("HTTP error " ++ toString 401) :=
  ⟨(fetch_failure_fail_fast ⟨401, some []⟩ ⟨200, some []⟩).1 (by decide) netOk,
   (fetch_failure_fail_fast ⟨200, some []⟩ ⟨401, some []⟩).2 (by decide) (by decide) netOk⟩

/-- Claim C5: for a batch of `N = (toAdd S D).length` issued add calls of
which exactly `K = rejectedCount (toAdd S D) net` are rejected, the report
has `attempted = N`, `failed.length = K` and `added = N - K`, whichever
calls fail; no failure cancels or drops another call's outcome. -/
theorem add_failure_isolation (src dst : FetchResp) (net : Nat → AddResp)
    (report : Report) (S D : List Member)
    (hs : src.items = some S) (hd : dst.items = some D)
    (h : main src dst net = Except.ok report) :
    report.attempted = (toAdd S D).length ∧
      report.failed.length = rejectedCount (toAdd S D) net ∧
      report.added = (toAdd S D).length - rejectedCount (toAdd S D) net := by
  have hr := main_ok_elim src dst net report S D hs hd h
  subst hr
  have hlen := addResults_length (toAdd S D) net
  have hcount := counts_aux _ _ hlen
  have hfail := failed_length_aux _ _ hlen
  refine ⟨rfl, hfail, ?_⟩
  simp only [mkReport, rejectedCount] at *
  omega

/-- Witness for C5: two missing members, the first add succeeds and the
second is rejected, giving attempted 2, one failure, one addition. -/
theorem add_failure_isolation_witness :
    (Report.mk 2 1 [⟨"Bob", "Error: HTTP 409 – conflict"⟩]).attempted
        = (toAdd [mAlice, mBob] []).length ∧
      (Report.mk 2 1 [⟨"Bob", "Error: HTTP 409 – conflict"⟩]).failed.length
        = rejectedCount (toAdd [mAlice, mBob] []) netMixed ∧
      (Report.mk 2 1 [⟨"Bob", "Error: HTTP 409 – conflict"⟩]).added
        = (toAdd [mAlice, mBob] []).length - rejectedCount (toAdd [mAlice, mBob] []) netMixed :=
  add_failure_isolation ⟨200, some [mAlice, mBob]⟩ ⟨200, some []⟩ netMixed
    (Report.mk 2 1 [⟨"Bob", "Error: HTTP 409 – conflict"⟩]) [mAlice, mBob] [] rfl rfl rfl

/-- Claim C6: the failure list's entries correspond, in order, to the
members of the missing list whose call was rejected — a subsequence of the
missing list, so failures keep the missing list's relative order; the
model indexes each settled outcome by its originating position (the
guarantee `Promise.allSettled` provides), so completion order plays no
role. -/
theorem failed_preserves_missing_order (src dst : FetchResp) (net : Nat → AddResp)
    (report : Report) (S D : List Member)
    (hs : src.items = some S) (hd : dst.items = some D)
    (h : main src dst net = Except.ok report) :
    report.failed.map FailEntry.personId
        = (rejectedMembers (toAdd S D) net).map Member.personDisplayName ∧
      (rejectedMembers (toAdd S D) net).Sublist (toAdd S D) := by
  have hr := main_ok_elim src dst net report S D hs hd h
  subst hr
  constructor
  · simpa [mkReport, rejectedMembers] using
      failed_map_aux (addResults (toAdd S D) net) (toAdd S D)
  · exact snd_zip_sublist _ _ (addResults_length (toAdd S D) net)

/-- Witness for C6: with two missing members and only the second add
rejected, the failure list is the display name of the second member, and
the rejected members form a subsequence of the missing list. -/
theorem failed_preserves_missing_order_witness :
    (Report.mk 2 1 [⟨"Bob", "Error: HTTP 409 – conflict"⟩]).failed.map FailEntry.personId
        = (rejectedMembers (toAdd [mAlice, mBob] []) netMixed).map Member.personDisplayName ∧
      (rejectedMembers (toAdd [mAlice, mBob] []) netMixed).Sublist (toAdd [mAlice, mBob] []) :=
  failed_preserves_missing_order ⟨200, some [mAlice, mBob]⟩ ⟨200, some []⟩ netMixed
    (Report.mk 2 1 [⟨"Bob", "Error: HTTP 409 – conflict"⟩]) [mAlice, mBob] [] rfl rfl rfl

/-- Claim C7: if a first run succeeds with no failures, and a second run
fetches the same source roster and a destination roster whose `personId`
values are exactly those of the first destination plus those of the first
run's missing list (the remote state changed only by the first run's
successful adds), then the second run's report has `attempted = 0`. -/
theorem rerun_attempted_zero
    (src1 dst1 : FetchResp) (net1 : Nat → AddResp) (r1 : Report)
    (S D : List Member)
    (_hs1 : src1.items = some S) (_hd1 : dst1.items = some D)
    (_h1 : main src1 dst1 net1 = Except.ok r1) (_hall : r1.failed = [])
    (src2 dst2 : FetchResp) (net2 : Nat → AddResp) (r2 : Report) (D2 : List Member)
    (hs2 : src2.items = some S) (hd2 : dst2.items = some D2)
    (hD2 : ∀ pid : String, pid ∈ D2.map Member.personId ↔
      pid ∈ D.map Member.personId ∨ pid ∈ (toAdd S D).map Member.personId)
    (h2 : main src2 dst2 net2 = Except.ok r2) :
    r2.attempted = 0 := by
  have hr2 := main_ok_elim src2 dst2 net2 r2 S D2 hs2 hd2 h2
  subst hr2
  have hempty : toAdd S D2 = [] := by
    apply List.filter_eq_nil_iff.mpr
    intro m hm
    simp only [Bool.not_eq_true, Bool.not_eq_false]
    have : m.personId ∈ D2.map Member.personId := by
      by_cases hmem : m.personId ∈ D.map Member.personId
      · exact (hD2 m.personId).mpr (Or.inl hmem)
      · have hin : m ∈ toAdd S D := (mem_toAdd S D m).mpr ⟨hm, hmem⟩
        exact (hD2 m.personId).mpr (Or.inr (List.mem_map_of_mem Member.personId hin))
    simpa [dstMemberIds] using this
  simp [mkReport, hempty]

/-- Witness for C7: one member in the source, an empty destination; the
first run adds it, the second run against the grown destination attempts
nothing. -/
theorem rerun_attempted_zero_witness : (Report.mk 0 0 []).attempted = 0 :=
  rerun_attempted_zero ⟨200, some [mAlice]⟩ ⟨200, some []⟩ netOk (Report.mk 1 1 [])
    [mAlice] [] rfl rfl rfl rfl
    ⟨200, some [mAlice]⟩ ⟨200, some [mAlice]⟩ netOk (Report.mk 0 0 []) [mAlice]
    rfl rfl (by intro pid; simp [toAdd, dstMemberIds, mAlice]) rfl

/-- Claim C8: `addMember` resolves to `true` exactly when the response is
success-class, and on any non-success response — a duplicate-membership
409 included, there being no pre-check — it throws an error carrying the
HTTP status and the response body. -/
theorem addMember_contract (resp : AddResp) :
    (addMember resp = Except.ok true ↔ isOk resp.status = true) ∧
    (isOk resp.status = false →
      addMember resp
        = Except.error ("HTTP " ++ toString resp.status ++ " – " ++ resp.body)) := by
  refine ⟨?_, ?_⟩
  · cases h : isOk resp.status <;> simp [addMember, h]
  · intro h
    simp [addMember, h]

/-- Witness for C8: a 409 duplicate rejection throws with status and body;
a 200 response resolves to `true`. -/
theorem addMember_contract_witness :
    addMember ⟨409, "dup"⟩ = Except.error ("HTTP " ++ toString 409 ++ " – " ++ "dup") ∧
    addMember ⟨200, ""⟩ = Except.ok true :=
  ⟨(addMember_contract ⟨409, "dup"⟩).2 (by decide),
   (addMember_contract ⟨200, ""⟩).1.mpr (by decide)⟩

/-- Claim C9: a `personId` absent from the destination keeps its full
multiplicity through the diff (no de-duplication of the source roster),
and the batch issues one separate add call per copy in the missing list. -/
theorem source_duplicates_not_deduped (S D : List Member) (m : Member)
    (h : m.personId ∉ D.map Member.personId) :
    (toAdd S D).count m = S.count m ∧
      ∀ net : Nat → AddResp, (addResults (toAdd S D) net).length = (toAdd S D).length := by
  constructor
  · unfold toAdd
    apply List.count_filter
    simpa [dstMemberIds] using h
  · intro net
    exact addResults_length (toAdd S D) net

/-- Witness for C9: a source roster holding the same member twice against
an empty destination keeps both copies, and two add calls are issued. -/
theorem source_duplicates_not_deduped_witness :
    (toAdd [mBob, mBob] []).count mBob = ([mBob, mBob] : List Member).count mBob ∧
      ∀ net : Nat → AddResp,
        (addResults (toAdd [mBob, mBob] []) net).length = (toAdd [mBob, mBob] []).length :=
  source_duplicates_not_deduped [mBob, mBob] [] mBob (by simp)

/-- Claim C10: a success-class roster fetch whose parsed body has no
`items` field resolves to `undefined` (`none`), not a member list —
`getMembers` returns `data.items` without validation — and a run whose
source fetch resolved that way fails with the `TypeError` thrown when the
orchestrator maps or filters the undefined roster. -/
theorem getMembers_missing_items (s : FetchResp)
    (h1 : isOk s.status = true) (h2 : s.items = none) :
    getMembers s = Except.ok none ∧
    (∀ r : FetchResp, isOk r.status = true → getMembers r = Except.ok r.items) ∧
    ∀ (d : FetchResp) (net : Nat → AddResp), isOk d.status = true →
      main s d net
          = Except.error "TypeError: Cannot read properties of undefined (reading map)" ∨
      main s d net
          = Except.error "TypeError: Cannot read properties of undefined (reading filter)" := by
  refine ⟨by simp [getMembers, h1, h2], fun r hr => by simp [getMembers, hr], ?_⟩
  intro d net hd
  cases hitems : d.items with
  | none =>
    left
    simp [main, getMembers, h1, h2, hd, hitems]
  | some D =>
    right
    simp [main, getMembers, h1, h2, hd, hitems]

/-- Witness for C10: a 200 response with no `items` field makes the run
fail with a `TypeError` even though both fetches succeeded. -/
theorem getMembers_missing_items_witness :
    getMembers ⟨200, none⟩ = Except.ok none ∧
    (main (⟨200, none⟩ : FetchResp) ⟨200, some []⟩ netOk
        = Except.error "TypeError: Cannot read properties of undefined (reading map)" ∨
      main (⟨200, none⟩ : FetchResp) ⟨200, some []⟩ netOk
        = Except.error "TypeError: Cannot read properties of undefined (reading filter)") :=
  have h := getMembers_missing_items ⟨200, none⟩ (by decide) rfl
  ⟨h.1, h.2.2 ⟨200, some []⟩ netOk (by decide)⟩

end SyncWebex
